import Mathlib

/-!
# Verification of the EmailListVerify SDK core (transport + error classification)

Shallow embedding of the SDK's error taxonomy (`src/utils/errors.ts`), HTTP
transport (`src/utils/http.ts`) and endpoint client (`src/client.ts`) in Lean.
JavaScript strings are modelled as Lean `String`; `undefined`/`null` as
`Option`; thrown errors as `Except`.  `JSON.parse` is an external platform
primitive and is taken as an explicit function parameter
`jsonParse : String → Option ApiErrorResponse` (`none` models a parse throw),
so every theorem quantifies over its behaviour.
-/

namespace ELV

/-! ## JavaScript string primitives -/

/-- Character-list prefix test (used to realise `String.prototype.includes`). -/
def isPre : List Char → List Char → Bool
  | [], _ => true
  | _ :: _, [] => false
  | a :: as, b :: bs => a == b && isPre as bs

/-- Does `needle` occur as a contiguous sublist of the haystack? -/
def hasSub (needle : List Char) : List Char → Bool
  | [] => needle.isEmpty
  | c :: rest => isPre needle (c :: rest) || hasSub needle rest

/-- JS `s.includes(needle)` (case-sensitive). -/
def strIncludes (s needle : String) : Bool :=
  hasSub needle.data s.data

/-- JS `s.toLowerCase()` (the SDK only ever lowercases ASCII messages). -/
def jsToLower (s : String) : String := ⟨s.data.map Char.toLower⟩

/-- JS `message.toLowerCase().includes(needle)` with an already-lowercase needle. -/
def jsIncludesLower (message needle : String) : Bool :=
  strIncludes (jsToLower message) needle

/-- ASCII whitespace as recognised by JS `\s` / `String.prototype.trim`
(the SDK's messages and inputs are ASCII). -/
def jsIsSpace (c : Char) : Bool :=
  c == ' ' || c == '\t' || c == '\n' || c == '\r' || c.toNat == 11 || c.toNat == 12

/-- JS `s.trim()`. -/
def jsTrim (s : String) : String :=
  ⟨((s.data.dropWhile jsIsSpace).reverse.dropWhile jsIsSpace).reverse⟩

/-- JS `v || d` for an optional string (`undefined` and `""` are falsy). -/
def jsOrStr (v : Option String) (d : String) : String :=
  match v with
  | some s => if s = "" then d else s
  | none => d

/-- JS `v || d` for an optional number (`undefined` and `0` are falsy). -/
def jsOrNat (v : Option Nat) (d : Nat) : Nat :=
  match v with
  | some n => if n = 0 then d else n
  | none => d

/-! ## Error taxonomy (`src/utils/errors.ts`) -/

/-- `ApiErrorResponse` from `src/types`.  The TS interface declares the fields
required, but the values come from untrusted JSON casts, so each field is
modelled as optional (absent ≈ `undefined`). -/
structure ApiErrorResponse where
  statusCode : Option Nat
  message : Option String
  error : Option String
deriving Repr, DecidableEq

/-- A lower-level JS error used as a `cause` (its `name` and `message`). -/
structure JsError where
  name : String
  message : String
deriving Repr, DecidableEq

/-- The runtime class of an SDK error (the `name` discriminant each
constructor assigns; `base` is `EmailListVerifyError` itself). -/
inductive ErrName where
  | base
  | auth
  | forbidden
  | insufficientCredits
  | tooManyJobs
  | notFound
  | emailJobNotFound
  | maillistNotFound
  | placementTestNotFound
  | badRequest
  | invalidFile
  | maillistNotFinished
  | rateLimit
  | network
  | timeout
  | validation
  | parse
deriving Repr, DecidableEq

/-- `error instanceof NotFoundError` (the three specialized not-found classes
extend `NotFoundError`). -/
def ErrName.inNotFoundFamily : ErrName → Bool
  | .notFound | .emailJobNotFound | .maillistNotFound | .placementTestNotFound => true
  | _ => false

/-- One value of the SDK error taxonomy: the fields of
`EmailListVerifyError` plus the extra fields of its subclasses
(unused fields stay `none`, as the corresponding JS properties are absent). -/
structure ELVError where
  name : ErrName
  message : String
  statusCode : Option Nat
  code : Option String
  response : Option ApiErrorResponse
  cause : Option JsError
  creditsRequired : Option Nat
  resourceType : Option String
  resourceId : Option String
  retryAfter : Option Nat
  field : Option String
deriving Repr, DecidableEq

/-- The `EmailListVerifyError` base constructor. -/
def mkELVError (message : String) (statusCode : Option Nat) (code : Option String)
    (response : Option ApiErrorResponse) (cause : Option JsError) : ELVError :=
  { name := .base, message := message, statusCode := statusCode, code := code,
    response := response, cause := cause, creditsRequired := none,
    resourceType := none, resourceId := none, retryAfter := none, field := none }

/-- `new AuthenticationError(message, response)`. -/
def AuthenticationError.make (message : String) (response : Option ApiErrorResponse) : ELVError :=
  { mkELVError message (some 401) (some "AUTH_ERROR") response none with name := .auth }

/-- `new ForbiddenError(message, response)`. -/
def ForbiddenError.make (message : String) (response : Option ApiErrorResponse) : ELVError :=
  { mkELVError message (some 403) (some "FORBIDDEN") response none with name := .forbidden }

/-- `new InsufficientCreditsError(message, creditsRequired, response)`. -/
def InsufficientCreditsError.make (message : String) (creditsRequired : Option Nat)
    (response : Option ApiErrorResponse) : ELVError :=
  { mkELVError message (some 403) (some "INSUFFICIENT_CREDITS") response none with
    name := .insufficientCredits, creditsRequired := creditsRequired }

/-- `new TooManyJobsError(message, response)`. -/
def TooManyJobsError.make (message : String) (response : Option ApiErrorResponse) : ELVError :=
  { mkELVError message (some 403) (some "TOO_MANY_JOBS") response none with name := .tooManyJobs }

/-- `new NotFoundError(message, resourceType, resourceId, response)`. -/
def NotFoundError.make (message : String) (resourceType : Option String)
    (resourceId : Option String) (response : Option ApiErrorResponse) : ELVError :=
  { mkELVError message (some 404) (some "NOT_FOUND") response none with
    name := .notFound, resourceType := resourceType, resourceId := resourceId }

/-- `new EmailJobNotFoundError(jobId, response)`. -/
def EmailJobNotFoundError.make (jobId : String) (response : Option ApiErrorResponse) : ELVError :=
  { NotFoundError.make "Email job not found" (some "EmailJob") (some jobId) response with
    name := .emailJobNotFound }

/-- `new MaillistNotFoundError(listId, response)`. -/
def MaillistNotFoundError.make (listId : String) (response : Option ApiErrorResponse) : ELVError :=
  { NotFoundError.make "Email list not found" (some "Maillist") (some listId) response with
    name := .maillistNotFound }

/-- `new PlacementTestNotFoundError(code, response)`: the message is the fixed
string, with the code appended only when `code` is truthy. -/
def PlacementTestNotFoundError.make (code : Option String)
    (response : Option ApiErrorResponse) : ELVError :=
  { NotFoundError.make
      (match code with
       | some c => if c = "" then "Placement test not found"
                   else "Placement test not found: " ++ c
       | none => "Placement test not found")
      (some "PlacementTest") code response with
    name := .placementTestNotFound }

/-- `new BadRequestError(message, response)`. -/
def BadRequestError.make (message : String) (response : Option ApiErrorResponse) : ELVError :=
  { mkELVError message (some 400) (some "BAD_REQUEST") response none with name := .badRequest }

/-- `new InvalidFileError(message, response)`. -/
def InvalidFileError.make (message : String) (response : Option ApiErrorResponse) : ELVError :=
  { mkELVError message (some 400) (some "INVALID_FILE") response none with name := .invalidFile }

/-- `new MaillistNotFinishedError(message, response)`. -/
def MaillistNotFinishedError.make (message : String)
    (response : Option ApiErrorResponse) : ELVError :=
  { mkELVError message (some 400) (some "MAILLIST_NOT_FINISHED") response none with
    name := .maillistNotFinished }

/-- `new RateLimitError(message, retryAfter, response)`. -/
def RateLimitError.make (message : String) (retryAfter : Option Nat)
    (response : Option ApiErrorResponse) : ELVError :=
  { mkELVError message (some 429) (some "RATE_LIMIT") response none with
    name := .rateLimit, retryAfter := retryAfter }

/-- `new NetworkError(message, cause)`. -/
def NetworkError.make (message : String) (cause : Option JsError) : ELVError :=
  { mkELVError message none (some "NETWORK_ERROR") none cause with name := .network }

/-- `new TimeoutError(message, cause)`. -/
def TimeoutError.make (message : String) (cause : Option JsError) : ELVError :=
  { mkELVError message none (some "TIMEOUT") none cause with name := .timeout }

/-- `new ValidationError(message, field)`. -/
def ValidationError.make (message : String) (field : Option String) : ELVError :=
  { mkELVError message none (some "VALIDATION_ERROR") none none with
    name := .validation, field := field }

/-- `new ParseError(message, cause)`. -/
def ParseError.make (message : String) (cause : Option JsError) : ELVError :=
  { mkELVError message none (some "PARSE_ERROR") none cause with name := .parse }

/-! ## The classification factory `createErrorFromResponse` -/

/-- The `responseBody` argument: an already-decoded JSON object, a raw string,
or `null`. -/
inductive RespBody where
  | obj (r : ApiErrorResponse)
  | str (s : String)
  | nullBody
deriving Repr, DecidableEq

/-- Digits of a `\d+` capture to the number `parseInt` returns. -/
def digitsToNat (ds : List Char) : Nat :=
  ds.foldl (fun n c => n * 10 + (c.toNat - 48)) 0

/-- Try the regex `/(\d+)\s+required/` anchored at the current position:
a maximal nonempty digit run, then nonempty whitespace, then `required`. -/
def creditsAt (cs : List Char) : Option Nat :=
  let ds := cs.takeWhile Char.isDigit
  let rest := cs.dropWhile Char.isDigit
  if ds.isEmpty then none
  else
    let ws := rest.takeWhile jsIsSpace
    let rest2 := rest.dropWhile jsIsSpace
    if ws.isEmpty then none
    else if isPre "required".data rest2 then some (digitsToNat ds) else none

/-- Scan left-to-right for the first position at which the pattern matches
(JS `message.match(/(\d+)\s+required/)`). -/
def findCreditsAux : List Char → Option Nat
  | [] => none
  | c :: rest =>
    match creditsAt (c :: rest) with
    | some n => some n
    | none => findCreditsAux rest

/-- The optional credits count `createErrorFromResponse` extracts from a 403
message via `/(\d+)\s+required/` and `parseInt`. -/
def findCredits (message : String) : Option Nat :=
  findCreditsAux message.data

/-- The message/response extraction prologue of `createErrorFromResponse`:
objects contribute themselves and their (possibly falsy) `message`; strings are
run through `JSON.parse` and fall back to the raw string; `null` keeps the
default message. -/
def extractMessage (jsonParse : String → Option ApiErrorResponse)
    (responseBody : RespBody) (defaultMessage : String) :
    String × Option ApiErrorResponse :=
  match responseBody with
  | .obj r => (jsOrStr r.message defaultMessage, some r)
  | .str s =>
    match jsonParse s with
    | some r => (jsOrStr r.message defaultMessage, some r)
    | none => (if s = "" then defaultMessage else s, none)
  | .nullBody => (defaultMessage, none)

/-- `createErrorFromResponse(statusCode, responseBody, defaultMessage)`:
extract a message, then dispatch on the status code with the documented
substring heuristics (the `switch` is equality dispatch, written here as an
if-chain). -/
def createErrorFromResponse (jsonParse : String → Option ApiErrorResponse)
    (statusCode : Nat) (responseBody : RespBody) (defaultMessage : String) : ELVError :=
  let em := extractMessage jsonParse responseBody defaultMessage
  let message := em.1
  let apiResponse := em.2
  if statusCode = 400 then
    if jsIncludesLower message "file" then InvalidFileError.make message apiResponse
    else if jsIncludesLower message "not finished" then
      MaillistNotFinishedError.make message apiResponse
    else BadRequestError.make message apiResponse
  else if statusCode = 401 then AuthenticationError.make message apiResponse
  else if statusCode = 403 then
    if jsIncludesLower message "credit" then
      InsufficientCreditsError.make message (findCredits message) apiResponse
    else if jsIncludesLower message "too many" then
      TooManyJobsError.make message apiResponse
    else ForbiddenError.make message apiResponse
  else if statusCode = 404 then
    if jsIncludesLower message "email job" then
      EmailJobNotFoundError.make "unknown" apiResponse
    else if jsIncludesLower message "email list" || jsIncludesLower message "maillist" then
      MaillistNotFoundError.make "unknown" apiResponse
    else if jsIncludesLower message "placement test" then
      PlacementTestNotFoundError.make none apiResponse
    else NotFoundError.make message none none apiResponse
  else if statusCode = 429 then RateLimitError.make message none apiResponse
  else mkELVError message (some statusCode) (some "API_ERROR") apiResponse none

/-! ## Transport layer (`src/utils/http.ts`) -/

/-- A query-parameter value (`string | number | boolean`). -/
inductive PValue where
  | s (v : String)
  | n (v : Int)
  | b (v : Bool)
deriving Repr, DecidableEq

/-- JS `String(value)` on a query value. -/
def PValue.toStr : PValue → String
  | .s v => v
  | .n v => toString v
  | .b v => if v then "true" else "false"

/-- The key/value pairs `buildUrl` appends to the URL: `secret` (the API key)
first, then every param whose value is neither `undefined` nor `null`,
stringified. -/
def buildQueryPairs (apiKey : String) (params : List (String × Option PValue)) :
    List (String × String) :=
  ("secret", apiKey) ::
    params.filterMap (fun p => p.2.map (fun v => (p.1, v.toStr)))

/-- UTF-8 bytes of one character. -/
def utf8Bytes (c : Char) : List Nat :=
  let n := c.toNat
  if n < 0x80 then [n]
  else if n < 0x800 then [0xC0 ||| (n >>> 6), 0x80 ||| (n &&& 0x3F)]
  else if n < 0x10000 then
    [0xE0 ||| (n >>> 12), 0x80 ||| ((n >>> 6) &&& 0x3F), 0x80 ||| (n &&& 0x3F)]
  else
    [0xF0 ||| (n >>> 18), 0x80 ||| ((n >>> 12) &&& 0x3F),
     0x80 ||| ((n >>> 6) &&& 0x3F), 0x80 ||| (n &&& 0x3F)]

/-- Uppercase hex digit. -/
def hexDigit (n : Nat) : Char :=
  if n < 10 then Char.ofNat (48 + n) else Char.ofNat (55 + n)

/-- `%XX` escape of one byte. -/
def pctByte (b : Nat) : String :=
  String.mk ['%', hexDigit (b / 16), hexDigit (b % 16)]

/-- One character under the `application/x-www-form-urlencoded` serializer
used by `URLSearchParams` (space becomes `+`; `*-._` and alphanumerics pass;
everything else is percent-encoded byte-wise). -/
def formUrlEncodedChar (c : Char) : String :=
  if c == ' ' then "+"
  else if c.isAlphanum || c == '*' || c == '-' || c == '.' || c == '_' then String.mk [c]
  else String.join ((utf8Bytes c).map pctByte)

/-- `URLSearchParams` percent-encoding of a whole string. -/
def formUrlEncoded (s : String) : String :=
  String.join (s.data.map formUrlEncodedChar)

/-- Serialization of the search params into the URL's query string. -/
def serializeQuery (pairs : List (String × String)) : String :=
  String.intercalate "&" (pairs.map (fun p => formUrlEncoded p.1 ++ "=" ++ formUrlEncoded p.2))

/-- The query string of the URL `buildUrl` returns (the scheme/authority/path
prefix is handled by the platform's `URL` class and carries no SDK logic). -/
def buildUrlQueryString (apiKey : String) (params : List (String × Option PValue)) : String :=
  serializeQuery (buildQueryPairs apiKey params)

/-- One field of a multipart form: `formData.append(name, blob, filename)`. -/
structure FormEntry where
  name : String
  blob : List Nat
  filename : String
deriving Repr, DecidableEq

/-- `CreateEmailJobRequest` from `src/types`. -/
structure CreateEmailJobRequest where
  email : String
  quality : Option String
deriving Repr, DecidableEq

/-- `FindContactRequest` from `src/types`. -/
structure FindContactRequest where
  firstName : Option String
  lastName : Option String
  domain : String
deriving Repr, DecidableEq

/-- The JSON-serializable request objects the endpoint client sends. -/
inductive JsonBodyVal where
  | emailJob (r : CreateEmailJobRequest)
  | contact (r : FindContactRequest)
deriving Repr, DecidableEq

/-- The transport's `body` argument: absent (`undefined`, falsy), a structured
JSON object (truthy, not a `FormData`), or a `FormData`. -/
inductive ReqBody where
  | noBody
  | jsonBody (v : JsonBodyVal)
  | formBody (entries : List FormEntry)
deriving Repr, DecidableEq

/-- `headers[k] = v` on a JS object modelled as a unique-key association
list: overwrite the existing entry, else append. -/
def setHeader : List (String × String) → String → String → List (String × String)
  | [], k, v => [(k, v)]
  | p :: rest, k, v => if p.1 = k then (k, v) :: rest else p :: setHeader rest k v

/-- Object spread `{ ...base, ...extra }` (later keys win). -/
def mergeHeaders (base extra : List (String × String)) : List (String × String) :=
  extra.foldl (fun acc p => setHeader acc p.1 p.2) base

/-- First-match header lookup. -/
def getHeader (hs : List (String × String)) (k : String) : Option String :=
  (hs.find? (fun p => p.1 = k)).map (·.2)

/-- `buildHeaders(customHeaders, body)`: merge configured and per-call headers,
then set `Content-Type: application/json` only for a truthy non-`FormData`
body. -/
def buildHeaders (configHeaders customHeaders : List (String × String))
    (body : ReqBody) : List (String × String) :=
  let headers := mergeHeaders configHeaders customHeaders
  match body with
  | .jsonBody _ => setHeader headers "Content-Type" "application/json"
  | .formBody _ => headers
  | .noBody => headers

/-- An HTTP response as the transport observes it.  `errJson`/`errText` are
the outcomes of `response.json()` / `response.text()` on the error path
(`none` models a decode throw); `bodyData` is the outcome of decoding the body
on the success path, abstracting `parseResponse`'s content-type dispatch. -/
structure HttpResp where
  status : Nat
  statusText : String
  contentType : Option String
  errJson : Option ApiErrorResponse
  errText : Option String
  bodyData : Except JsError String
deriving Repr

/-- `response.ok`: status in the 2xx range. -/
def respOk (r : HttpResp) : Bool :=
  200 ≤ r.status && r.status < 300

/-- `handleErrorResponse(response)`: best-effort decode of the error body —
JSON when the content-type says so, else raw text, `null` if decoding throws —
then classification with the default message `HTTP <status>: <statusText>`. -/
def handleErrorResponse (jsonParse : String → Option ApiErrorResponse)
    (r : HttpResp) : ELVError :=
  let ct := jsOrStr r.contentType ""
  let errorBody : RespBody :=
    if strIncludes ct "application/json" then
      match r.errJson with
      | some a => .obj a
      | none => .nullBody
    else
      match r.errText with
      | some s => .str s
      | none => .nullBody
  createErrorFromResponse jsonParse r.status errorBody
    ("HTTP " ++ toString r.status ++ ": " ++ r.statusText)

/-- The outcome of one `fetch` call.  Per the WHATWG fetch contract the
promise rejects only with an `AbortError` (the timeout controller fired
before any response arrived) or a `TypeError` (the transport mechanism
failed to produce any HTTP response); otherwise a response arrives. -/
inductive FetchOutcome where
  | aborted (msg : String)
  | netFailed (msg : String)
  | httpResp (r : HttpResp)
deriving Repr

/-- The body of `HttpClient.request`: resolve the effective timeout
(`options.timeout ?? config.timeout`), then map the fetch outcome to either
decoded data or exactly one typed error, mirroring the `try`/`catch`
dispatch (`AbortError` → `TimeoutError`, `TypeError` → `NetworkError`,
non-2xx response → `handleErrorResponse`, undecodable success body →
`ParseError`). -/
def request (jsonParse : String → Option ApiErrorResponse) (cfgTimeout : Nat)
    (optTimeout : Option Nat) (outcome : FetchOutcome) : Except ELVError String :=
  let timeout := optTimeout.getD cfgTimeout
  match outcome with
  | .aborted m =>
    .error (TimeoutError.make ("Request timeout after " ++ toString timeout ++ "ms")
      (some ⟨"AbortError", m⟩))
  | .netFailed m =>
    .error (NetworkError.make ("Network request failed: " ++ m) (some ⟨"TypeError", m⟩))
  | .httpResp r =>
    if respOk r then
      match r.bodyData with
      | .ok d => .ok d
      | .error e =>
        .error (ParseError.make ("Failed to parse response: " ++ e.message) (some e))
    else .error (handleErrorResponse jsonParse r)

/-- The error code of a request result (`none` on success). -/
def reqErrCode (res : Except ELVError String) : Option String :=
  match res with
  | .error e => e.code
  | .ok _ => none

/-! ## Endpoint client (`src/client.ts`) -/

/-- A JS runtime value as `validateRequired(value: unknown, ...)` sees it. -/
inductive JsVal where
  | undef
  | nullv
  | str (s : String)
  | blob (b : List Nat)
deriving Repr, DecidableEq

/-- `validateRequired(value, fieldName)`: rejects `undefined`, `null` and the
empty string (and nothing else — in particular it does not trim). -/
def validateRequired (value : JsVal) (fieldName : String) : Except ELVError Unit :=
  match value with
  | .undef => .error (ValidationError.make (fieldName ++ " is required") (some fieldName))
  | .nullv => .error (ValidationError.make (fieldName ++ " is required") (some fieldName))
  | .str s =>
    if s = "" then .error (ValidationError.make (fieldName ++ " is required") (some fieldName))
    else .ok ()
  | .blob _ => .ok ()

/-- `validateEmail(email)`: requires a truthy string, nonempty after trim,
containing `@` and of length at least 3. -/
def validateEmail (email : String) : Except ELVError Unit :=
  if email = "" then
    .error (ValidationError.make "Email is required and must be a string" (some "email"))
  else
    let trimmed := jsTrim email
    if trimmed = "" then .error (ValidationError.make "Email cannot be empty" (some "email"))
    else if !(strIncludes trimmed "@") || trimmed.length < 3 then
      .error (ValidationError.make "Invalid email format" (some "email"))
    else .ok ()

/-- HTTP method of a request descriptor. -/
inductive HttpMethod where
  | get
  | post
  | delete
deriving Repr, DecidableEq

/-- The fully-shaped request an endpoint method hands to the transport.  A
method whose validation fails returns `Except.error` instead, so no
descriptor — hence no network request — is ever produced. -/
structure RequestDesc where
  method : HttpMethod
  path : String
  params : List (String × Option PValue)
  body : ReqBody
deriving Repr, DecidableEq

/-- `verifyEmail(email)` up to its transport call. -/
def verifyEmail (email : String) : Except ELVError RequestDesc := do
  validateEmail email
  .ok { method := .get, path := "/api/verifyEmail",
        params := [("email", some (.s email))], body := .noBody }

/-- `verifyEmailDetailed(email)` up to its transport call. -/
def verifyEmailDetailed (email : String) : Except ELVError RequestDesc := do
  validateEmail email
  .ok { method := .get, path := "/api/verifyEmailDetailed",
        params := [("email", some (.s email))], body := .noBody }

/-- `createEmailJob(request)` up to its transport call. -/
def createEmailJob (req : CreateEmailJobRequest) : Except ELVError RequestDesc := do
  validateEmail req.email
  .ok { method := .post, path := "/api/emailJobs", params := [],
        body := .jsonBody (.emailJob req) }

/-- `getEmailJob(jobId)` up to its transport call. -/
def getEmailJob (jobId : String) : Except ELVError RequestDesc := do
  validateRequired (.str jobId) "jobId"
  .ok { method := .get, path := "/api/emailJobs/" ++ jobId, params := [], body := .noBody }

/-- `findContact(request)` up to its transport call. -/
def findContact (req : FindContactRequest) : Except ELVError RequestDesc := do
  validateRequired (.str req.domain) "domain"
  .ok { method := .post, path := "/api/findContact", params := [],
        body := .jsonBody (.contact req) }

/-- `checkDisposable(domain)` up to its transport call (POST with the domain
as a query parameter and no body, the documented API quirk). -/
def checkDisposable (domain : String) : Except ELVError RequestDesc := do
  validateRequired (.str domain) "domain"
  .ok { method := .post, path := "/api/checkDisposable",
        params := [("domain", some (.s domain))], body := .noBody }

/-- `uploadBulkFile(file, filename)` up to its transport call: a multipart
form with the single field `file_contents` (a `Buffer` is first wrapped in a
`Blob` carrying the same bytes). -/
def uploadBulkFile (file : List Nat) (filename : String) : Except ELVError RequestDesc := do
  validateRequired (.blob file) "file"
  validateRequired (.str filename) "filename"
  .ok { method := .post, path := "/api/verifyApiFile", params := [],
        body := .formBody [⟨"file_contents", file, filename⟩] }

/-- `getBulkProgress(fileId)` up to its transport call. -/
def getBulkProgress (fileId : String) : Except ELVError RequestDesc := do
  validateRequired (.str fileId) "fileId"
  .ok { method := .get, path := "/api/maillists/" ++ fileId ++ "/progress",
        params := [], body := .noBody }

/-- A `DownloadMaillistOptions` value (`string | number | boolean | array`). -/
inductive OptValue where
  | s (v : String)
  | n (v : Int)
  | b (v : Bool)
  | arr (vs : List String)
deriving Repr, DecidableEq

/-- One defined option value flattened to a query value: arrays are joined by
a comma into one string, scalars pass through. -/
def flattenValue : OptValue → PValue
  | .s v => .s v
  | .n v => .n v
  | .b v => .b v
  | .arr vs => .s (String.intercalate "," vs)

/-- The options-to-params loop of `downloadBulkResults`: skip entries whose
value is `undefined`, flatten the rest. -/
def flattenOptions : List (String × Option OptValue) → List (String × PValue)
  | [] => []
  | (_, none) :: rest => flattenOptions rest
  | (k, some v) :: rest => (k, flattenValue v) :: flattenOptions rest

/-- `downloadBulkResults(fileId, options)` up to its transport call. -/
def downloadBulkResults (fileId : String)
    (options : Option (List (String × Option OptValue))) : Except ELVError RequestDesc := do
  validateRequired (.str fileId) "fileId"
  let params := match options with
                | none => []
                | some opts => flattenOptions opts
  .ok { method := .get, path := "/api/maillists/" ++ fileId,
        params := params.map (fun p => (p.1, some p.2)), body := .noBody }

/-- `deleteBulkList(fileId)` up to its transport call. -/
def deleteBulkList (fileId : String) : Except ELVError RequestDesc := do
  validateRequired (.str fileId) "fileId"
  .ok { method := .delete, path := "/api/maillists/" ++ fileId, params := [], body := .noBody }

/-- `getCredits()` up to its transport call. -/
def getCredits : Except ELVError RequestDesc :=
  .ok { method := .get, path := "/api/credits", params := [], body := .noBody }

/-! ## Client construction (`EmailListVerifyClient` constructor) -/

/-- `DEFAULT_BASE_URL` from `src/client.ts`. -/
def DEFAULT_BASE_URL : String := "https://api.emaillistverify.com"

/-- `DEFAULT_TIMEOUT` from `src/client.ts` (30 seconds). -/
def DEFAULT_TIMEOUT : Nat := 30000

/-- The optional constructor configuration (`Partial<Omit<ClientConfig, 'apiKey'>>`). -/
structure ClientOptions where
  baseUrl : Option String
  timeout : Option Nat
  headers : List (String × String)
deriving Repr, DecidableEq

/-- The `HttpClientConfig` the constructor hands to `createHttpClient`. -/
structure HttpClientConfig where
  apiKey : String
  baseUrl : String
  timeout : Nat
  headers : List (String × String)
deriving Repr, DecidableEq

/-- The `EmailListVerifyClient` constructor: reject an empty or
whitespace-only API key, then store the trimmed key with `||`-defaulted
base URL and timeout and the User-Agent header under any caller headers.
The constructor issues no request; it only builds this configuration. -/
def mkClient (apiKey : String) (options : Option ClientOptions)
    (userAgent : String) : Except ELVError HttpClientConfig :=
  if apiKey = "" || jsTrim apiKey = "" then
    .error (ValidationError.make "API key is required and must be a non-empty string"
      (some "apiKey"))
  else
    .ok { apiKey := jsTrim apiKey,
          baseUrl := jsOrStr (options.bind (·.baseUrl)) DEFAULT_BASE_URL,
          timeout := jsOrNat (options.bind (·.timeout)) DEFAULT_TIMEOUT,
          headers := mergeHeaders [("User-Agent", userAgent)]
            (match options with
             | some o => o.headers
             | none => []) }

/-! ## Theorems -/

/-- C1 counterexample: for the 404 JSON body
`{"statusCode":404,"message":"Placement test not found: ELV-X"}` the factory's
result does not carry the server's extracted message — the claim's message
clause fails at this input. -/
theorem C1_counterexample :
    ¬ ((createErrorFromResponse (fun _ => none) 404
        (.obj ⟨some 404, some "Placement test not found: ELV-X", none⟩)
        "API request failed").message = "Placement test not found: ELV-X") := by decide

/-- C1 (amended): for every HTTP 404 response whose extracted message contains
(case-insensitively) "placement test" and none of the earlier-checked
"email job" / "email list" / "maillist" substrings, `createErrorFromResponse`
returns `PlacementTestNotFoundError` — in the `NOT_FOUND` family — but with
the fixed message "Placement test not found"; the server's extracted message
is not propagated into the error message (only into the attached response). -/
theorem C1_amended (jsonParse : String → Option ApiErrorResponse)
    (body : RespBody) (d : String)
    (h1 : jsIncludesLower (extractMessage jsonParse body d).1 "placement test" = true)
    (h2 : jsIncludesLower (extractMessage jsonParse body d).1 "email job" = false)
    (h3 : jsIncludesLower (extractMessage jsonParse body d).1 "email list" = false)
    (h4 : jsIncludesLower (extractMessage jsonParse body d).1 "maillist" = false) :
    createErrorFromResponse jsonParse 404 body d
      = PlacementTestNotFoundError.make none (extractMessage jsonParse body d).2
    ∧ (createErrorFromResponse jsonParse 404 body d).name.inNotFoundFamily = true
    ∧ (createErrorFromResponse jsonParse 404 body d).message = "Placement test not found" := by
  have he : createErrorFromResponse jsonParse 404 body d
      = PlacementTestNotFoundError.make none (extractMessage jsonParse body d).2 := by
    simp [createErrorFromResponse, h1, h2, h3, h4]
  refine ⟨he, ?_, ?_⟩ <;>
    simp [he, PlacementTestNotFoundError.make, NotFoundError.make, mkELVError,
      ErrName.inNotFoundFamily]

/-- C1 witness: the amended statement at the spec's concrete 404 body. -/
theorem C1_witness :
    createErrorFromResponse (fun _ => none) 404
        (.obj ⟨some 404, some "Placement test not found: ELV-X", none⟩) "API request failed"
      = PlacementTestNotFoundError.make none
          (extractMessage (fun _ => none)
            (.obj ⟨some 404, some "Placement test not found: ELV-X", none⟩)
            "API request failed").2
    ∧ (createErrorFromResponse (fun _ => none) 404
        (.obj ⟨some 404, some "Placement test not found: ELV-X", none⟩)
        "API request failed").name.inNotFoundFamily = true
    ∧ (createErrorFromResponse (fun _ => none) 404
        (.obj ⟨some 404, some "Placement test not found: ELV-X", none⟩)
        "API request failed").message = "Placement test not found" :=
  C1_amended (fun _ => none)
    (.obj ⟨some 404, some "Placement test not found: ELV-X", none⟩) "API request failed"
    (by decide) (by decide) (by decide) (by decide)

/-- C2 counterexample: a 400 response whose message contains "not finished"
(and not "file") yields an error whose machine-readable code is not
`LIST_NOT_FINISHED`. -/
theorem C2_counterexample :
    ¬ ((createErrorFromResponse (fun _ => none) 400
        (.obj ⟨some 400, some "List has not finished yet", none⟩)
        "API request failed").code = some "LIST_NOT_FINISHED") := by decide

/-- C2 (amended): for every HTTP 400 response whose extracted message contains
(case-insensitively) "not finished" and not "file", the factory returns the
list-not-finished variant `MaillistNotFinishedError`, whose stable code string
is exactly "MAILLIST_NOT_FINISHED". -/
theorem C2_amended (jsonParse : String → Option ApiErrorResponse)
    (body : RespBody) (d : String)
    (h1 : jsIncludesLower (extractMessage jsonParse body d).1 "not finished" = true)
    (h2 : jsIncludesLower (extractMessage jsonParse body d).1 "file" = false) :
    createErrorFromResponse jsonParse 400 body d
      = MaillistNotFinishedError.make (extractMessage jsonParse body d).1
          (extractMessage jsonParse body d).2
    ∧ (createErrorFromResponse jsonParse 400 body d).code = some "MAILLIST_NOT_FINISHED"
    ∧ (createErrorFromResponse jsonParse 400 body d).name = .maillistNotFinished := by
  have he : createErrorFromResponse jsonParse 400 body d
      = MaillistNotFinishedError.make (extractMessage jsonParse body d).1
          (extractMessage jsonParse body d).2 := by
    simp [createErrorFromResponse, h1, h2]
  refine ⟨he, ?_, ?_⟩ <;> simp [he, MaillistNotFinishedError.make, mkELVError]

/-- C2 witness: the amended statement at a concrete 400 body. -/
theorem C2_witness :
    createErrorFromResponse (fun _ => none) 400
        (.obj ⟨some 400, some "List has not finished yet", none⟩) "API request failed"
      = MaillistNotFinishedError.make
          (extractMessage (fun _ => none)
            (.obj ⟨some 400, some "List has not finished yet", none⟩) "API request failed").1
          (extractMessage (fun _ => none)
            (.obj ⟨some 400, some "List has not finished yet", none⟩) "API request failed").2
    ∧ (createErrorFromResponse (fun _ => none) 400
        (.obj ⟨some 400, some "List has not finished yet", none⟩)
        "API request failed").code = some "MAILLIST_NOT_FINISHED"
    ∧ (createErrorFromResponse (fun _ => none) 400
        (.obj ⟨some 400, some "List has not finished yet", none⟩)
        "API request failed").name = .maillistNotFinished :=
  C2_amended (fun _ => none) (.obj ⟨some 400, some "List has not finished yet", none⟩)
    "API request failed" (by decide) (by decide)

/-- C3 counterexample: `getEmailJob " "` with a whitespace-only job id does
not raise `VALIDATION_ERROR` — it produces a request descriptor, so a request
does reach the transport layer (`validateRequired` does not trim). -/
theorem C3_counterexample :
    getEmailJob " "
      = Except.ok { method := .get, path := "/api/emailJobs/ ",
                    params := [], body := .noBody } := rfl

/-- C3 (amended): every endpoint-client operation taking a required
identifier/string parameter rejects the empty string with `VALIDATION_ERROR`
naming that field, producing no request descriptor; but a value that is merely
whitespace (nonempty) passes `validateRequired` unchanged, because the check
is `=== ''` without trimming. -/
theorem C3_amended (b : List Nat) (req : FindContactRequest) (hreq : req.domain = "")
    (opts : Option (List (String × Option OptValue))) (s : String) (hs : s ≠ "")
    (fn : String) :
    getEmailJob "" = .error (ValidationError.make "jobId is required" (some "jobId"))
    ∧ findContact req = .error (ValidationError.make "domain is required" (some "domain"))
    ∧ checkDisposable "" = .error (ValidationError.make "domain is required" (some "domain"))
    ∧ uploadBulkFile b "" = .error (ValidationError.make "filename is required" (some "filename"))
    ∧ getBulkProgress "" = .error (ValidationError.make "fileId is required" (some "fileId"))
    ∧ downloadBulkResults "" opts
        = .error (ValidationError.make "fileId is required" (some "fileId"))
    ∧ deleteBulkList "" = .error (ValidationError.make "fileId is required" (some "fileId"))
    ∧ (ValidationError.make (fn ++ " is required") (some fn)).code = some "VALIDATION_ERROR"
    ∧ (ValidationError.make (fn ++ " is required") (some fn)).field = some fn
    ∧ validateRequired (.str s) fn = .ok () := by
  refine ⟨?_, ?_, ?_, ?_, ?_, ?_, ?_, ?_, ?_, ?_⟩ <;>
    simp [getEmailJob, findContact, checkDisposable, uploadBulkFile, getBulkProgress,
      downloadBulkResults, deleteBulkList, validateRequired, hreq, hs,
      ValidationError.make, mkELVError, Bind.bind, Except.bind]

/-- C3 witness: the amended statement at concrete inputs, with the
whitespace-only string `" "` passing validation. -/
theorem C3_witness :
    getEmailJob "" = .error (ValidationError.make "jobId is required" (some "jobId"))
    ∧ findContact ⟨none, none, ""⟩
        = .error (ValidationError.make "domain is required" (some "domain"))
    ∧ checkDisposable "" = .error (ValidationError.make "domain is required" (some "domain"))
    ∧ uploadBulkFile [1, 2] ""
        = .error (ValidationError.make "filename is required" (some "filename"))
    ∧ getBulkProgress "" = .error (ValidationError.make "fileId is required" (some "fileId"))
    ∧ downloadBulkResults "" none
        = .error (ValidationError.make "fileId is required" (some "fileId"))
    ∧ deleteBulkList "" = .error (ValidationError.make "fileId is required" (some "fileId"))
    ∧ (ValidationError.make ("jobId" ++ " is required") (some "jobId")).code
        = some "VALIDATION_ERROR"
    ∧ (ValidationError.make ("jobId" ++ " is required") (some "jobId")).field = some "jobId"
    ∧ validateRequired (.str " ") "jobId" = .ok () :=
  C3_amended [1, 2] ⟨none, none, ""⟩ rfl none " " (by decide) "jobId"

/-- Every error the classification factory can produce carries a
server-side code: never the transport-local `PARSE_ERROR`, `TIMEOUT` or
`NETWORK_ERROR` codes. -/
theorem createError_code_ne (jsonParse : String → Option ApiErrorResponse)
    (sc : Nat) (body : RespBody) (d : String) :
    (createErrorFromResponse jsonParse sc body d).code ≠ some "PARSE_ERROR"
    ∧ (createErrorFromResponse jsonParse sc body d).code ≠ some "TIMEOUT"
    ∧ (createErrorFromResponse jsonParse sc body d).code ≠ some "NETWORK_ERROR" := by
  unfold createErrorFromResponse
  dsimp only
  split_ifs <;>
    simp [InvalidFileError.make, MaillistNotFinishedError.make, BadRequestError.make,
      AuthenticationError.make, InsufficientCreditsError.make, TooManyJobsError.make,
      EmailJobNotFoundError.make, MaillistNotFoundError.make, PlacementTestNotFoundError.make,
      NotFoundError.make, ForbiddenError.make, RateLimitError.make, mkELVError]

/-- Status codes outside the documented set fall through to the generic
fallback constructor with code `API_ERROR`. -/
theorem createError_default_branch (jsonParse : String → Option ApiErrorResponse)
    (sc : Nat) (body : RespBody) (d : String)
    (h1 : sc ≠ 400) (h2 : sc ≠ 401) (h3 : sc ≠ 403) (h4 : sc ≠ 404) (h5 : sc ≠ 429) :
    createErrorFromResponse jsonParse sc body d
      = mkELVError (extractMessage jsonParse body d).1 (some sc) (some "API_ERROR")
          (extractMessage jsonParse body d).2 none := by
  simp [createErrorFromResponse, h1, h2, h3, h4, h5]

/-- C4: for every HTTP 403 response, the factory checks the "credit"
substring heuristic first (so it deterministically wins when "too many" is
also present, and carries `findCredits` of the message), then "too many",
then falls back to the generic `ForbiddenError`. -/
theorem C4_holds (jsonParse : String → Option ApiErrorResponse)
    (body : RespBody) (d : String) :
    (jsIncludesLower (extractMessage jsonParse body d).1 "credit" = true →
      createErrorFromResponse jsonParse 403 body d
        = InsufficientCreditsError.make (extractMessage jsonParse body d).1
            (findCredits (extractMessage jsonParse body d).1)
            (extractMessage jsonParse body d).2)
    ∧ (jsIncludesLower (extractMessage jsonParse body d).1 "credit" = false →
       jsIncludesLower (extractMessage jsonParse body d).1 "too many" = true →
      createErrorFromResponse jsonParse 403 body d
        = TooManyJobsError.make (extractMessage jsonParse body d).1
            (extractMessage jsonParse body d).2)
    ∧ (jsIncludesLower (extractMessage jsonParse body d).1 "credit" = false →
       jsIncludesLower (extractMessage jsonParse body d).1 "too many" = false →
      createErrorFromResponse jsonParse 403 body d
        = ForbiddenError.make (extractMessage jsonParse body d).1
            (extractMessage jsonParse body d).2) := by
  refine ⟨fun h1 => ?_, fun h1 h2 => ?_, fun h1 h2 => ?_⟩
  · simp [createErrorFromResponse, h1]
  · simp [createErrorFromResponse, h1, h2]
  · simp [createErrorFromResponse, h1, h2]

/-- C4 witness: a 403 message containing both "credit" and "too many" yields
`INSUFFICIENT_CREDITS` (credits heuristic first), with the count 500 parsed
from "500 required". -/
theorem C4_witness :
    createErrorFromResponse (fun _ => none) 403
        (.obj ⟨none, some "Too many running jobs and not enough credits: 500 required", none⟩)
        "API request failed"
      = InsufficientCreditsError.make
          "Too many running jobs and not enough credits: 500 required" (some 500)
          (some ⟨none, some "Too many running jobs and not enough credits: 500 required", none⟩) := by
  have h := (C4_holds (fun _ => none)
    (.obj ⟨none, some "Too many running jobs and not enough credits: 500 required", none⟩)
    "API request failed").1 (by decide)
  rw [h]; decide

/-- C5: on the error path the transport raises exactly one typed error:
a non-2xx response is turned into `handleErrorResponse`'s result; that result
never carries the `PARSE_ERROR` code (decode failures of the error body are
swallowed, yielding a `null` body and the default message
`HTTP <status>: <statusText>`); a `null` body makes the factory use the
default message with no payload; and any status outside
{400, 401, 403, 404, 429} yields the generic fallback with code `API_ERROR`,
preserving status (on the base `EmailListVerifyError` class). -/
theorem C5_holds (jsonParse : String → Option ApiErrorResponse)
    (cfgT : Nat) (optT : Option Nat) (r : HttpResp) (dm : String) :
    (respOk r = false →
      request jsonParse cfgT optT (.httpResp r) = .error (handleErrorResponse jsonParse r))
    ∧ (handleErrorResponse jsonParse r).code ≠ some "PARSE_ERROR"
    ∧ (strIncludes (jsOrStr r.contentType "") "application/json" = true → r.errJson = none →
        handleErrorResponse jsonParse r
          = createErrorFromResponse jsonParse r.status .nullBody
              ("HTTP " ++ toString r.status ++ ": " ++ r.statusText))
    ∧ (strIncludes (jsOrStr r.contentType "") "application/json" = false → r.errText = none →
        handleErrorResponse jsonParse r
          = createErrorFromResponse jsonParse r.status .nullBody
              ("HTTP " ++ toString r.status ++ ": " ++ r.statusText))
    ∧ extractMessage jsonParse .nullBody dm = (dm, none)
    ∧ (r.status ≠ 400 → r.status ≠ 401 → r.status ≠ 403 → r.status ≠ 404 → r.status ≠ 429 →
        (handleErrorResponse jsonParse r).code = some "API_ERROR"
        ∧ (handleErrorResponse jsonParse r).statusCode = some r.status
        ∧ (handleErrorResponse jsonParse r).name = .base) := by
  refine ⟨fun hok => ?_, ?_, fun h1 h2 => ?_, fun h1 h2 => ?_, rfl, fun h1 h2 h3 h4 h5 => ?_⟩
  · simp [request, hok]
  · simp only [handleErrorResponse]
    exact (createError_code_ne jsonParse r.status _ _).1
  · simp [handleErrorResponse, h1, h2]
  · simp [handleErrorResponse, h1, h2]
  · simp only [handleErrorResponse]
    rw [createError_default_branch _ _ _ _ h1 h2 h3 h4 h5]
    simp [mkELVError]

/-- C5 witness: a 500 response declaring a JSON content-type whose body fails
to decode yields the generic `API_ERROR` fallback with the default message
`HTTP 500: Internal Server Error`, raised as the single typed error. -/
theorem C5_witness :
    (request (fun _ => none) 30000 none
        (.httpResp ⟨500, "Internal Server Error", some "application/json", none, none, .ok ""⟩)
      = .error (handleErrorResponse (fun _ => none)
          ⟨500, "Internal Server Error", some "application/json", none, none, .ok ""⟩))
    ∧ (handleErrorResponse (fun _ => none)
        ⟨500, "Internal Server Error", some "application/json", none, none, .ok ""⟩).code
        = some "API_ERROR"
    ∧ (handleErrorResponse (fun _ => none)
        ⟨500, "Internal Server Error", some "application/json", none, none, .ok ""⟩).statusCode
        = some 500
    ∧ (handleErrorResponse (fun _ => none)
        ⟨500, "Internal Server Error", some "application/json", none, none, .ok ""⟩).message
        = "HTTP 500: Internal Server Error" := by
  have h := C5_holds (fun _ => none) 30000 none
    ⟨500, "Internal Server Error", some "application/json", none, none, .ok ""⟩ "d"
  refine ⟨h.1 (by decide), (h.2.2.2.2.2 (by decide) (by decide) (by decide) (by decide)
    (by decide)).1, (h.2.2.2.2.2 (by decide) (by decide) (by decide) (by decide)
    (by decide)).2.1, ?_⟩
  rw [h.2.2.1 (by decide) rfl]; decide

/-- C6: timeout and network failure are mutually exclusive outcomes of one
request: an abort of the timeout guard (set to the per-call override if
present, else the client default) yields exactly the `TIMEOUT` error wrapping
the abort cause; a transport-mechanism failure yields exactly the
`NETWORK_ERROR` error wrapping the underlying `TypeError`; the result code is
`TIMEOUT` iff the deadline fired and `NETWORK_ERROR` iff the mechanism
failed, and no single call can report both. -/
theorem C6_holds (jsonParse : String → Option ApiErrorResponse)
    (cfgT : Nat) (optT : Option Nat) (m : String) :
    request jsonParse cfgT optT (.aborted m)
      = .error (TimeoutError.make
          ("Request timeout after " ++ toString (optT.getD cfgT) ++ "ms")
          (some ⟨"AbortError", m⟩))
    ∧ request jsonParse cfgT optT (.netFailed m)
      = .error (NetworkError.make ("Network request failed: " ++ m) (some ⟨"TypeError", m⟩))
    ∧ (∀ o : FetchOutcome,
        reqErrCode (request jsonParse cfgT optT o) = some "TIMEOUT"
          ↔ ∃ mm, o = .aborted mm)
    ∧ (∀ o : FetchOutcome,
        reqErrCode (request jsonParse cfgT optT o) = some "NETWORK_ERROR"
          ↔ ∃ mm, o = .netFailed mm)
    ∧ (∀ o : FetchOutcome,
        ¬ (reqErrCode (request jsonParse cfgT optT o) = some "TIMEOUT"
           ∧ reqErrCode (request jsonParse cfgT optT o) = some "NETWORK_ERROR")) := by
  have hcode : ∀ o : FetchOutcome, ∀ c : String,
      c = "TIMEOUT" ∨ c = "NETWORK_ERROR" →
      reqErrCode (request jsonParse cfgT optT o) = some c →
      (c = "TIMEOUT" → ∃ mm, o = .aborted mm) ∧
      (c = "NETWORK_ERROR" → ∃ mm, o = .netFailed mm) := by
    intro o c hc h
    cases o with
    | aborted mm =>
      simp [request, reqErrCode, TimeoutError.make, NetworkError.make, mkELVError] at h
      subst h
      exact ⟨fun _ => ⟨mm, rfl⟩, fun hne => absurd hne (by decide)⟩
    | netFailed mm =>
      simp [request, reqErrCode, TimeoutError.make, NetworkError.make, mkELVError] at h
      subst h
      exact ⟨fun hne => absurd hne (by decide), fun _ => ⟨mm, rfl⟩⟩
    | httpResp r =>
      exfalso
      by_cases hok : respOk r
      · simp only [request, hok, if_true, reqErrCode] at h
        cases hb : r.bodyData with
        | ok dta => rw [hb] at h; simp [reqErrCode] at h
        | error e =>
          rw [hb] at h
          simp [reqErrCode, ParseError.make, mkELVError] at h
          rcases hc with hc | hc <;> subst hc <;> simp at h
      · simp only [request, hok, if_false, Bool.false_eq_true, reqErrCode] at h
        have hne := createError_code_ne jsonParse r.status
          (if strIncludes (jsOrStr r.contentType "") "application/json" then
            match r.errJson with
            | some a => .obj a
            | none => .nullBody
          else
            match r.errText with
            | some s => .str s
            | none => .nullBody)
          ("HTTP " ++ toString r.status ++ ": " ++ r.statusText)
        rcases hc with hc | hc <;> subst hc
        · exact hne.2.1 (by simpa [handleErrorResponse] using h)
        · exact hne.2.2 (by simpa [handleErrorResponse] using h)
  refine ⟨rfl, rfl, fun o => ⟨fun h => ?_, fun ⟨mm, hm⟩ => ?_⟩,
    fun o => ⟨fun h => ?_, fun ⟨mm, hm⟩ => ?_⟩, fun o ⟨hA, hB⟩ => ?_⟩
  · exact (hcode o "TIMEOUT" (Or.inl rfl) h).1 rfl
  · subst hm; simp [request, reqErrCode, TimeoutError.make, mkELVError]
  · exact (hcode o "NETWORK_ERROR" (Or.inr rfl) h).2 rfl
  · subst hm; simp [request, reqErrCode, NetworkError.make, mkELVError]
  · rw [hA] at hB; simp at hB

/-- C6 witness: with a 1 ms per-call override against a transport that never
resolves (the guard aborts), the call rejects with `TIMEOUT` and its code is
not `NETWORK_ERROR`. -/
theorem C6_witness :
    request (fun _ => none) 30000 (some 1) (.aborted "This operation was aborted")
      = .error (TimeoutError.make
          ("Request timeout after " ++ toString ((some 1 : Option Nat).getD 30000) ++ "ms")
          (some ⟨"AbortError", "This operation was aborted"⟩))
    ∧ ¬ (reqErrCode (request (fun _ => none) 30000 (some 1)
          (.aborted "This operation was aborted")) = some "TIMEOUT"
        ∧ reqErrCode (request (fun _ => none) 30000 (some 1)
          (.aborted "This operation was aborted")) = some "NETWORK_ERROR") :=
  ⟨(C6_holds (fun _ => none) 30000 (some 1) "This operation was aborted").1,
   (C6_holds (fun _ => none) 30000 (some 1) "This operation was aborted").2.2.2.2
     (.aborted "This operation was aborted")⟩

/-- C7: for every credential that is nonempty after trimming, construction
succeeds and stores the trimmed credential; for every credential that is
empty or whitespace-only after trimming, construction fails with the
`VALIDATION_ERROR`-coded error naming the `apiKey` field (so no transport
configuration — hence no network call — is ever produced). -/
theorem C7_holds (apiKey ua : String) (options : Option ClientOptions) :
    (jsTrim apiKey ≠ "" →
      ∃ cfg, mkClient apiKey options ua = .ok cfg ∧ cfg.apiKey = jsTrim apiKey)
    ∧ (jsTrim apiKey = "" →
      mkClient apiKey options ua
        = .error (ValidationError.make "API key is required and must be a non-empty string"
            (some "apiKey")))
    ∧ (ValidationError.make "API key is required and must be a non-empty string"
        (some "apiKey")).code = some "VALIDATION_ERROR"
    ∧ (ValidationError.make "API key is required and must be a non-empty string"
        (some "apiKey")).field = some "apiKey" := by
  refine ⟨fun h => ?_, fun h => ?_, rfl, rfl⟩
  · have hk : apiKey ≠ "" := fun he => h (by rw [he]; rfl)
    refine ⟨{ apiKey := jsTrim apiKey,
              baseUrl := jsOrStr (options.bind fun x => x.baseUrl) DEFAULT_BASE_URL,
              timeout := jsOrNat (options.bind fun x => x.timeout) DEFAULT_TIMEOUT,
              headers := mergeHeaders [("User-Agent", ua)]
                (match options with
                 | some o => o.headers
                 | none => []) }, ?_, rfl⟩
    simp [mkClient, hk, h]
  · simp [mkClient, h]

/-- C7 witness: `"  key  "` is accepted and stored trimmed; the
whitespace-only `"   "` is rejected with the `apiKey` validation error. -/
theorem C7_witness :
    (∃ cfg, mkClient "  key  " none "ua" = .ok cfg ∧ cfg.apiKey = jsTrim "  key  ")
    ∧ mkClient "   " none "ua"
        = .error (ValidationError.make "API key is required and must be a non-empty string"
            (some "apiKey")) :=
  ⟨(C7_holds "  key  " "ua" none).1 (by decide),
   (C7_holds "   " "ua" none).2.1 (by decide)⟩

/-- First-match lookup after a JS-object-style header assignment finds the
assigned value. -/
theorem getHeader_setHeader (hs : List (String × String)) (k v : String) :
    getHeader (setHeader hs k v) k = some v := by
  induction hs with
  | nil => simp [setHeader, getHeader]
  | cons p rest ih =>
    by_cases hp : p.1 = k
    · simp [setHeader, hp, getHeader]
    · simp only [setHeader, if_neg hp]
      simpa [getHeader, List.find?, hp] using ih

/-- C8: a bulk upload builds a multipart body holding exactly one field,
named `file_contents`, carrying the payload and filename; the transport adds
no `Content-Type` header of its own for multipart (or absent) bodies —
`buildHeaders` returns the merged configured/per-call headers unchanged —
while a structured JSON body gets `Content-Type: application/json`. -/
theorem C8_holds (b : List Nat) (filename : String) (hf : filename ≠ "")
    (cfgH custH : List (String × String)) (entries : List FormEntry) (j : JsonBodyVal) :
    uploadBulkFile b filename
      = .ok { method := .post, path := "/api/verifyApiFile", params := [],
              body := .formBody [⟨"file_contents", b, filename⟩] }
    ∧ buildHeaders cfgH custH (.formBody entries) = mergeHeaders cfgH custH
    ∧ buildHeaders cfgH custH .noBody = mergeHeaders cfgH custH
    ∧ getHeader (buildHeaders cfgH custH (.jsonBody j)) "Content-Type"
        = some "application/json" := by
  refine ⟨?_, rfl, rfl, ?_⟩
  · simp [uploadBulkFile, validateRequired, hf, Bind.bind, Except.bind]
  · simp only [buildHeaders]
    exact getHeader_setHeader _ _ _

/-- C8 witness: the statement at a concrete payload and `"emails.csv"`. -/
theorem C8_witness :
    uploadBulkFile [104, 105] "emails.csv"
      = .ok { method := .post, path := "/api/verifyApiFile", params := [],
              body := .formBody [⟨"file_contents", [104, 105], "emails.csv"⟩] }
    ∧ buildHeaders [("User-Agent", "ua")] [] (.formBody [⟨"file_contents", [104, 105],
        "emails.csv"⟩]) = mergeHeaders [("User-Agent", "ua")] []
    ∧ buildHeaders [("User-Agent", "ua")] [] .noBody = mergeHeaders [("User-Agent", "ua")] []
    ∧ getHeader (buildHeaders [("User-Agent", "ua")] []
        (.jsonBody (.emailJob ⟨"a@b.co", none⟩))) "Content-Type"
        = some "application/json" :=
  C8_holds [104, 105] "emails.csv" (by decide) [("User-Agent", "ua")] []
    [⟨"file_contents", [104, 105], "emails.csv"⟩] (.emailJob ⟨"a@b.co", none⟩)

/-- C9: in `downloadBulkResults`, option entries whose value is `undefined`
are skipped, array values are comma-joined into one string, and every
remaining value is stringified and percent-encoded into the query string — on
`{ addFirstName: true, results: ["ok","unknown"] }` the query contains
`addFirstName=true` and `results=ok%2Cunknown`. -/
theorem C9_holds (k apiKey : String) (vs : List String)
    (rest : List (String × Option OptValue)) :
    flattenOptions ((k, none) :: rest) = flattenOptions rest
    ∧ flattenOptions ((k, some (.arr vs)) :: rest)
        = (k, .s (String.intercalate "," vs)) :: flattenOptions rest
    ∧ (∀ params : List (String × PValue),
        buildQueryPairs apiKey (params.map (fun p => (p.1, some p.2)))
          = ("secret", apiKey) :: params.map (fun p => (p.1, p.2.toStr)))
    ∧ (∃ desc, downloadBulkResults "file-1"
          (some [("addFirstName", some (.b true)), ("results", some (.arr ["ok", "unknown"]))])
          = .ok desc
        ∧ strIncludes (buildUrlQueryString "KEY" desc.params) "addFirstName=true" = true
        ∧ strIncludes (buildUrlQueryString "KEY" desc.params) "results=ok%2Cunknown" = true) := by
  refine ⟨rfl, rfl, fun params => ?_, ?_⟩
  · induction params with
    | nil => rfl
    | cons p ps ih =>
      simp only [List.map_cons, buildQueryPairs, List.filterMap_cons] at ih ⊢
      simp_all
  · exact ⟨_, rfl, by decide, by decide⟩

/-- C10: configuration overrides are honored only when truthy: a caller
supplying timeout `0` or an empty-string base URL gets the defaults
(30000 ms, the documented base URL) silently substituted, and no
successfully-constructed client can carry a zero timeout. -/
theorem C10_holds (apiKey ua : String) (hs : List (String × String))
    (h : jsTrim apiKey ≠ "") :
    (∃ cfg, mkClient apiKey (some ⟨some "", some 0, hs⟩) ua = .ok cfg
       ∧ cfg.timeout = DEFAULT_TIMEOUT ∧ cfg.baseUrl = DEFAULT_BASE_URL
       ∧ cfg.timeout = 30000 ∧ cfg.baseUrl = "https://api.emaillistverify.com")
    ∧ (∀ (options : Option ClientOptions) (cfg : HttpClientConfig),
        mkClient apiKey options ua = .ok cfg → cfg.timeout ≠ 0) := by
  have hk : apiKey ≠ "" := fun he => h (by rw [he]; rfl)
  constructor
  · refine ⟨{ apiKey := jsTrim apiKey, baseUrl := DEFAULT_BASE_URL,
              timeout := DEFAULT_TIMEOUT,
              headers := mergeHeaders [("User-Agent", ua)] hs }, ?_, rfl, rfl, rfl, rfl⟩
    simp [mkClient, hk, h, jsOrStr, jsOrNat]
  · intro options cfg hok
    simp only [mkClient, hk, h, Bool.or_eq_true, decide_eq_true_eq, or_self,
      if_neg, not_false_eq_true, Except.ok.injEq] at hok
    rw [← hok]
    show jsOrNat (options.bind fun x => x.timeout) DEFAULT_TIMEOUT ≠ 0
    cases hv : options.bind (fun o => o.timeout) with
    | none => simp [jsOrNat, DEFAULT_TIMEOUT]
    | some n =>
      simp only [jsOrNat]
      split_ifs with hn
      · simp [DEFAULT_TIMEOUT]
      · exact hn

/-- C10 witness: the statement at the credential `"key"`. -/
theorem C10_witness :
    (∃ cfg, mkClient "key" (some ⟨some "", some 0, []⟩) "ua" = .ok cfg
       ∧ cfg.timeout = DEFAULT_TIMEOUT ∧ cfg.baseUrl = DEFAULT_BASE_URL
       ∧ cfg.timeout = 30000 ∧ cfg.baseUrl = "https://api.emaillistverify.com")
    ∧ (∀ (options : Option ClientOptions) (cfg : HttpClientConfig),
        mkClient "key" options "ua" = .ok cfg → cfg.timeout ≠ 0) :=
  C10_holds "key" "ua" [] (by decide)

end ELV
